import Mathlib

/-!
Verification development for `bin/StripChromeSymbols.py` (UIforETW).

The script is a straight-line orchestration program: it reads `sys.argv`
and `_NT_SYMBOL_PATH`, stages support files, scans `xperf` dump output for
chrome PDB records, retrieves and strips symbol files into temporary
directories, drives an `xperf` cache-build pass, and cleans up.

The embedding below models the script as a total function `run` from an
environment oracle `Env` (command line, environment variable, initial
filesystem, and the text output of the three external tools, which the
script only ever consumes as text) to a `RunResult` recording every
externally visible effect in order: messages printed, staging copies,
retrieval invocations, stripping invocations, temporary directories,
renames performed before and after the cache-build pass, the cache-build
invocation itself, and directory deletions.  External operations are
modelled as succeeding; the filesystem is threaded as a `String → Bool`
existence map updated by the copies and writes of the script itself.
-/

namespace StripChromeSymbols

/-- Path separator characters accepted by the Windows path routines
(`ntpath` treats both the backslash and the forward slash as separators). -/
def isSep (c : Char) : Bool := c == '\\' || c == '/'

/-- Boolean test: `needle` is a leading segment of `hay`. -/
def isPrefixB : List Char → List Char → Bool
  | [], _ => true
  | _ :: _, [] => false
  | a :: as, b :: bs => a == b && isPrefixB as bs

/-- Boolean substring test on character lists.  The script only ever tests
`str.count(sub) == 0` or `> 0`, i.e. presence of a substring. -/
def containsSub (needle : List Char) : List Char → Bool
  | [] => isPrefixB needle []
  | c :: rest => isPrefixB needle (c :: rest) || containsSub needle rest

/-- Substring test on strings: `needle` occurs contiguously in `hay`. -/
def strContains (hay needle : String) : Bool := containsSub needle.data hay.data

/-- Characters removed by Python `str.strip()` with no argument. -/
def isPySpace (c : Char) : Bool :=
  c == ' ' || c == '\t' || c == '\n' || c == '\r' || c == '\x0b' || c == '\x0c'

/-- Model of Python `str.strip()`: drop leading and trailing whitespace. -/
def pyStrip (s : String) : String :=
  String.mk (((s.data.dropWhile isPySpace).reverse.dropWhile isPySpace).reverse)

/-- First occurrence of `delim` in a character list, returning the pieces
before and after it. -/
def splitFirst (delim : List Char) : List Char → Option (List Char × List Char)
  | [] => if isPrefixB delim [] then some ([], []) else none
  | c :: cs =>
    if isPrefixB delim (c :: cs) then some ([], (c :: cs).drop delim.length)
    else
      match splitFirst delim cs with
      | some (b, a) => some (c :: b, a)
      | none => none

/-- Last occurrence of `delim` in a character list.  This is how the greedy
quantifiers of the anchored regular expressions in the script bind a literal
delimiter: every `.*` before a literal extends to the last occurrence of
that literal for which the remainder of the pattern still matches. -/
def splitLast (delim : List Char) (cs : List Char) : Option (List Char × List Char) :=
  match splitFirst delim.reverse cs.reverse with
  | some (aRev, bRev) => some (bRev.reverse, aRev.reverse)
  | none => none

/-- Model of `os.path.split` for plain Windows paths: split at the last
separator; separators adjacent to the split point are dropped from the head
unless the head would otherwise be empty (drive-root edge cases such as
`C:\x` are approximated, the script never depends on them). -/
def ospathSplit (p : String) : String × String :=
  let r := p.data.reverse
  let tailRev := r.takeWhile (fun c => !isSep c)
  let restRev := r.dropWhile (fun c => !isSep c)
  let headKeep := restRev.dropWhile isSep
  (String.mk (if headKeep.isEmpty then restRev.reverse else headKeep.reverse),
   String.mk tailRev.reverse)

/-- Model of `os.path.join` for the paths the script builds: the second
argument is taken whole when it starts with a separator, otherwise it is
appended after a backslash (none added if the first part already ends in a
separator or is empty). -/
def ospathJoin (a b : String) : String :=
  if a.data.isEmpty then b
  else if isSep (b.data.headD ' ') then b
  else if isSep (a.data.getLastD ' ') then String.mk (a.data ++ b.data)
  else String.mk (a.data ++ '\\' :: b.data)

/-- Split a character list into the components between path separators
(empty components are kept and later dropped by normalization). -/
def splitSeps : List Char → List (List Char)
  | [] => [[]]
  | c :: rest =>
    if isSep c then [] :: splitSeps rest
    else
      match splitSeps rest with
      | g :: gs => (c :: g) :: gs
      | [] => [[c]]

/-- Component-stack pass of `os.path.normpath`: drop empty and `.`
components, resolve `..` against the preceding component when possible. -/
def normStack : List (List Char) → List (List Char) → List (List Char)
  | stack, [] => stack.reverse
  | stack, c :: rest =>
    if c == [] || c == ['.'] then normStack stack rest
    else if c == ['.', '.'] then
      match stack with
      | [] => normStack [['.', '.']] rest
      | t :: below =>
        if t == ['.', '.'] then normStack (c :: stack) rest
        else normStack below rest
    else normStack (c :: stack) rest

/-- Re-join path components with backslashes. -/
def intercalateBS : List (List Char) → List Char
  | [] => []
  | [g] => g
  | g :: g2 :: gs => g ++ '\\' :: intercalateBS (g2 :: gs)

/-- Model of `os.path.normpath` for the drive-letter and relative paths the
script builds: split on separators, resolve `.` and `..`, re-join with
backslashes (`..` reaching past a drive root is approximated, the script
never produces that case). -/
def ospathNormpath (p : String) : String :=
  if (normStack [] (splitSeps p.data)).isEmpty then "."
  else String.mk (intercalateBS (normStack [] (splitSeps p.data)))

/-- Literal opening matched by `pdbRe`, i.e. a quote, the RSDS marker and
the opening brace before the signature group. -/
def rsdsLead : List Char := "\"[RSDS] PdbSig: \x7b".data

/-- Literal between the signature group and the age group of `pdbRe`. -/
def ageDelim : List Char := "\x7d; Age: ".data

/-- Literal between the age group and the path group of `pdbRe`. -/
def pdbDelim : List Char := "; Pdb: ".data

/-- Model of `pdbRe.match(line)` for the anchored RSDS pattern of line 88
of the script (quote, RSDS marker, brace-delimited signature group with
five dash-separated wildcards, an age group, a path group, and a closing
quote): a dot never crosses a newline, each greedy wildcard pushes the
following literal to its last feasible occurrence, and group 1 must
contain the four dashes demanded by its five sub-wildcards. -/
def pdbReMatch (line : String) : Option (String × String × String) :=
  let body := line.data.takeWhile (fun c => c != '\n')
  if isPrefixB rsdsLead body then
    let rest := body.drop rsdsLead.length
    match splitLast ['"'] rest with
    | none => none
    | some (beforeQuote, _) =>
      match splitLast pdbDelim beforeQuote with
      | none => none
      | some (u1, g3) =>
        match splitLast ageDelim u1 with
        | none => none
        | some (g1, g2) =>
          if 4 ≤ (g1.filter (fun c => c == '-')).length then
            some (String.mk g1, String.mk g2, String.mk g3)
          else none
  else none

/-- Literal opening of `pdbCachedRe`, matched against stripped sublines. -/
def placedLead : List Char := "Found symbol file - placed it in ".data

/-- Model of `pdbCachedRe.match(s)` for the anchored pattern
`Found symbol file - placed it in (.*)`. -/
def pdbCachedReMatch (s : String) : Option String :=
  let body := s.data.takeWhile (fun c => c != '\n')
  if isPrefixB placedLead body then some (String.mk (body.drop placedLead.length))
  else none

/-- Scan of the retrieval tool output (lines 119-123 of the script):
each matching stripped subline overwrites `pdbCachePath`, so the last
match wins. -/
def lastPlaced (lines : List String) : Option String :=
  lines.foldl
    (fun acc l =>
      match pdbCachedReMatch (pyStrip l) with
      | some p => some p
      | none => acc)
    none

/-- Model of `guid.replace("-", "")`. -/
def stripDashes (s : String) : String := String.mk (s.data.filter (fun c => c != '-'))

/-- Python truthiness of the `pdbCachePath` variable: `None` and the empty
string are falsy, any other string is truthy. -/
def pyTruthy : Option String → Bool
  | none => false
  | some s => !s.data.isEmpty

/-- The derived symcache file name (line 108 of the script): a literal
`chrome.dll` template filled with the dash-free signature and the age. -/
def symcacheName (guid age : String) : String :=
  "c:\\symcache\\chrome.dll-" ++ stripDashes guid ++ age ++ "v2.symcache"

/-- Lines 102-104 of the script: the binary-name filter followed by
`pdbRe.match`; a line yields a (signature, age, path) triple exactly when
it mentions one of the two chrome binaries and the pattern matches. -/
def parsedOf (line : String) : Option (String × String × String) :=
  if strContains line "chrome.dll" || strContains line "chrome_child.dll" then
    pdbReMatch line
  else none

/-- Point update of the threaded existence map. -/
def fsUpdate (fs : String → Bool) (p : String) (b : Bool) : String → Bool :=
  fun q => if q = p then b else fs q

/-- Model of `os.path.exists`: the empty path never exists (as in Python);
otherwise consult the threaded existence map. -/
def osExists (fs : String → Bool) (p : String) : Bool :=
  if p.data.isEmpty then false else fs p

/-- Environment oracle: everything the script reads from outside.  The
three external tools are only ever observed through their text output, so
they appear as output oracles; `exists0` is the disk state when the script
starts; `afterGen` is the disk state observed by the verification loop
after the external cache-build pass; `tempdirName` names the n-th fresh
temporary directory handed out by `tempfile.mkdtemp`. -/
structure Env where
  argv : List String
  ntSymbolPath : String
  exists0 : String → Bool
  dumpLines : List String
  retrieveLines : String → String → String → List String
  stripToolLines : String → String → List String
  afterGen : String → Bool
  tempdirName : Nat → String

/-- Fixed relative location of the staged support files. -/
def thirdPartyDir : String := "..\\third_party"

/-- Source path of a staged support file (line 67 of the script). -/
def stagingSource (scriptDir tp : String) : String :=
  ospathNormpath (ospathJoin (ospathJoin scriptDir thirdPartyDir) tp)

/-- Destination path of a staged support file (line 69 of the script). -/
def stagingDest (scriptDir tp : String) : String :=
  ospathNormpath (ospathJoin scriptDir tp)

/-- The statically named support files staged by lines 65-70. -/
def threeSupportFiles : List String := ["pdbcopy.exe", "dbghelp.dll", "symsrv.dll"]

/-- Outcome of the staging loop: the updated existence map and the copies
performed, in order. -/
structure StageResult where
  fs : String → Bool
  copies : List (String × String)

/-- Lines 65-70 of the script: for each support file, test
`os.path.exists(third_party)` — the bare name, resolved against the
current working directory — and if absent, `shutil.copy2` it from the
third-party directory to the script directory. -/
def stageLoop (scriptDir : String) :
    List String → (String → Bool) → List (String × String) → StageResult
  | [], fs, cs => ⟨fs, cs⟩
  | tp :: rest, fs, cs =>
    if osExists fs tp then stageLoop scriptDir rest fs cs
    else
      stageLoop scriptDir rest (fsUpdate fs (stagingDest scriptDir tp) true)
        (cs ++ [(stagingSource scriptDir tp, stagingDest scriptDir tp)])

/-- In-memory state of the trace-scanning loop (lines 100-137). -/
structure LoopState where
  fs : String → Bool
  foundUncached : Bool
  symcacheFiles : List String
  localSymbolFiles : List String
  tempdirs : List String
  retrieveCalls : List (String × String × String)
  stripCalls : List (String × String)
  messages : List String

/-- Lines 129-135 of the script: make a fresh temporary directory and
invoke `pdbcopy source dest -p` to strip the symbol file into it. -/
def stripInto (env : Env) (st : LoopState) (p : String) : LoopState :=
  let tempdir := env.tempdirName st.tempdirs.length
  let destPath := ospathJoin tempdir (ospathSplit p).2
  { st with
    tempdirs := st.tempdirs ++ [tempdir],
    fs := fsUpdate (fsUpdate st.fs tempdir true) destPath true,
    stripCalls := st.stripCalls ++ [(p, destPath)],
    messages := st.messages ++ ["Copying PDB to " ++ destPath]
      ++ (env.stripToolLines p destPath).map pyStrip }

/-- One iteration of the scanning loop (lines 101-137): filter and parse
the line, skip if the derived symcache file already exists, otherwise
record the expected symcache file, run the retrieval tool, fall back to
the locally built path when the output names no placed file, and either
strip into a fresh temporary directory or report a failure. -/
def processLine (env : Env) (retrievePath : String) (st : LoopState) (line : String) :
    LoopState :=
  match parsedOf line with
  | none => st
  | some (guid0, age, path) =>
    let guid := stripDashes guid0
    let filepart := (ospathSplit path).2
    let symcacheFile := "c:\\symcache\\chrome.dll-" ++ guid ++ age ++ "v2.symcache"
    if osExists st.fs symcacheFile then st
    else
      let st1 : LoopState :=
        { st with
          foundUncached := true,
          messages := st.messages
            ++ ["Found uncached reference to " ++ filepart ++ ": " ++ guid ++ " - " ++ age],
          symcacheFiles := st.symcacheFiles ++ [symcacheFile] }
      let retrieveOut := env.retrieveLines guid age filepart
      let st2 : LoopState :=
        { st1 with
          retrieveCalls := st1.retrieveCalls ++ [(guid, age, filepart)],
          messages := st1.messages
            ++ ["> " ++ retrievePath ++ " " ++ guid ++ " " ++ age ++ " " ++ filepart]
            ++ retrieveOut.map pyStrip }
      if pyTruthy (lastPlaced retrieveOut) then
        stripInto env st2 ((lastPlaced retrieveOut).getD "")
      else if osExists st2.fs path then
        stripInto env
          { st2 with localSymbolFiles := st2.localSymbolFiles ++ [path] } path
      else
        { st2 with
          messages := st2.messages
            ++ ["Failed to retrieve symbols. Check for RetrieveSymbols.exe and support files."] }

/-- Everything the run did, in order, plus the exit status. -/
structure RunResult where
  exitCode : Nat
  messages : List String
  copies : List (String × String)
  retrieveCalls : List (String × String × String)
  stripCalls : List (String × String)
  tempdirs : List String
  renamesBefore : List (String × String)
  renamesAfter : List (String × String)
  cacheBuild : Bool
  rmtrees : List String
  symcacheFiles : List String
  localSymbolFiles : List String
  dumpInvoked : Bool
  finalNtSymbolPath : String

/-- Result of the early `sys.exit(0)` paths: a message, possibly some
staging copies already performed, and no other effect. -/
def emptyResult (env : Env) (msgs : List String) (copies : List (String × String)) :
    RunResult :=
  { exitCode := 0, messages := msgs, copies := copies, retrieveCalls := [],
    stripCalls := [], tempdirs := [], renamesBefore := [], renamesAfter := [],
    cacheBuild := false, rmtrees := [], symcacheFiles := [], localSymbolFiles := [],
    dumpInvoked := false, finalNtSymbolPath := env.ntSymbolPath }

/-- Model of `";".join(tempdirs)`. -/
def joinSemi : List String → String
  | [] => ""
  | [d] => d
  | d :: d2 :: ds => d ++ ";" ++ joinSemi (d2 :: ds)

/-- Loop state before the first trace line is processed, carrying the two
messages printed before the dump command runs. -/
def initialState (fs : String → Bool) (tracename : String) : LoopState :=
  { fs := fs, foundUncached := false, symcacheFiles := [], localSymbolFiles := [],
    tempdirs := [], retrieveCalls := [], stripCalls := [],
    messages :=
      ["Pre-translating chrome symbols from stripped PDBs to avoid 10-15 minute translation times.",
       "> xperf -i \"" ++ tracename ++ "\" -tle -tti -a symcache -dbgid"] }

/-- Lines 139-171 of the script: if any temporary directory was produced,
point `_NT_SYMBOL_PATH` at the temporary directories, rename every local
symbol file out of the way, run the cache-build pass, rename them all
back, verify each recorded symcache file, and delete the temporary
directories only if every one was generated; otherwise print which of the
two nothing-to-do cases applies. -/
def finishRun (env : Env) (tracename : String) (copies : List (String × String))
    (stF : LoopState) : RunResult :=
  if stF.tempdirs.isEmpty then
    { exitCode := 0,
      messages := stF.messages
        ++ [if stF.foundUncached then "No PDBs copied, nothing to do."
            else "No uncached PDBS found, nothing to do."],
      copies := copies, retrieveCalls := stF.retrieveCalls,
      stripCalls := stF.stripCalls, tempdirs := stF.tempdirs,
      renamesBefore := [], renamesAfter := [], cacheBuild := false, rmtrees := [],
      symcacheFiles := stF.symcacheFiles, localSymbolFiles := stF.localSymbolFiles,
      dumpInvoked := true, finalNtSymbolPath := env.ntSymbolPath }
  else
    let joined := joinSemi stF.tempdirs
    let error :=
      stF.symcacheFiles.foldl (fun e f => if env.afterGen f then e else true) false
    { exitCode := 0,
      messages := stF.messages
        ++ ["Stripped PDBs are in " ++ joined ++ ". Converting to symcache files now."]
        ++ stF.localSymbolFiles.map
            (fun l => "Renaming " ++ l ++ " to " ++ l ++ "x to stop unstripped PDBs from being used.")
        ++ ["> xperf -i \"" ++ tracename ++ "\" -symbols -tle -tti -a symcache -build"]
        ++ stF.symcacheFiles.map
            (fun f => if env.afterGen f then f ++ " generated."
                      else "Error: " ++ f ++ " not generated.")
        ++ (if error then ["Retaining PDBs to allow rerunning xperf command-line."] else []),
      copies := copies, retrieveCalls := stF.retrieveCalls,
      stripCalls := stF.stripCalls, tempdirs := stF.tempdirs,
      renamesBefore := stF.localSymbolFiles.map (fun l => (l, l ++ "x")),
      renamesAfter := stF.localSymbolFiles.map (fun l => (l ++ "x", l)),
      cacheBuild := true,
      rmtrees := if error then [] else stF.tempdirs,
      symcacheFiles := stF.symcacheFiles, localSymbolFiles := stF.localSymbolFiles,
      dumpInvoked := true, finalNtSymbolPath := joined }

/-- Lines 72-171: the two tool-presence gates after staging (checked
against the staged filesystem), then the scanning loop and the finale.
`ospathJoin scriptDir "pdbcopy.exe"` and `"RetrieveSymbols.exe"` are the
`pdbcopyPath` and `retrievePath` of lines 59-60. -/
def runChecked (env : Env) (scriptDir : String) (stage : StageResult) : RunResult :=
  if osExists stage.fs (ospathJoin scriptDir "pdbcopy.exe") = false then
    emptyResult env ["pdbcopy.exe not found. No symbol stripping is possible."] stage.copies
  else if osExists stage.fs (ospathJoin scriptDir "RetrieveSymbols.exe") = false then
    emptyResult env ["RetrieveSymbols.exe not found. No symbol retrieval is possible."]
      stage.copies
  else
    finishRun env ((env.argv.drop 1).headD "") stage.copies
      (env.dumpLines.foldl (processLine env (ospathJoin scriptDir "RetrieveSymbols.exe"))
        (initialState stage.fs ((env.argv.drop 1).headD "")))

/-- Lines 58-171: resolve the script directory, stage the support files,
then continue with the gates and the main work. -/
def runStaged (env : Env) (scriptDir : String) : RunResult :=
  runChecked env scriptDir (stageLoop scriptDir threeSupportFiles env.exists0 [])

/-- The whole script, lines 49-171: usage gate, symbol-server gate,
staging, tool-presence gates, the scanning loop over the dump output, and
the cache-build finale. -/
def run (env : Env) : RunResult :=
  if env.argv.length < 2 then
    emptyResult env ["Usage: " ++ env.argv.headD "" ++ " trace.etl"] []
  else if strContains env.ntSymbolPath "chromium-browser-symsrv" = false then
    emptyResult env
      ["Chromium symbol server is not in _NT_SYMBOL_PATH. No symbol stripping needed."] []
  else
    runStaged env (ospathSplit (env.argv.headD "")).1

/-! ### Concrete environments used by witnesses and counterexamples -/

/-- A well-formed RSDS dump line for `chrome.dll`. -/
def chromeLine : String :=
  "\"[RSDS] PdbSig: \x7bbe90dbc6-fe31-4842-9c72-7e2ea88f0adf\x7d; Age: 1; Pdb: C:\\build\\chrome.dll.pdb\"\n"

/-- A well-formed RSDS dump line for `chrome_child.dll`, with the same
signature and age as `chromeLine` but a different PDB path. -/
def chromeChildLine : String :=
  "\"[RSDS] PdbSig: \x7bbe90dbc6-fe31-4842-9c72-7e2ea88f0adf\x7d; Age: 1; Pdb: C:\\build\\chrome_child.dll.pdb\"\n"

/-- The symcache name both lines above derive. -/
def chromeName : String :=
  "c:\\symcache\\chrome.dll-be90dbc6fe3148429c727e2ea88f0adf1v2.symcache"

/-- Environment with no trace-file argument. -/
def cEnvUsage : Env :=
  { argv := ["StripChromeSymbols.py"], ntSymbolPath := "",
    exists0 := fun _ => false, dumpLines := [],
    retrieveLines := fun _ _ _ => [], stripToolLines := fun _ _ => [],
    afterGen := fun _ => false, tempdirName := fun _ => "" }

/-- Environment whose symbol path lacks the chromium marker. -/
def cEnvNoMarker : Env :=
  { argv := ["StripChromeSymbols.py", "trace.etl"], ntSymbolPath := "SRV*c:\\symbols",
    exists0 := fun _ => false, dumpLines := [],
    retrieveLines := fun _ _ _ => [], stripToolLines := fun _ _ => [],
    afterGen := fun _ => false, tempdirName := fun _ => "" }

/-- Existence map with both tools present beside the script and all three
support files visible from the working directory. -/
def fullFs : String → Bool := fun s =>
  s == "pdbcopy.exe" || s == "dbghelp.dll" || s == "symsrv.dll" ||
  s == "C:\\bin\\pdbcopy.exe" || s == "C:\\bin\\RetrieveSymbols.exe"

/-- Environment for a complete successful run: one uncached chrome line,
a successful retrieval, and a cache-build pass that generates everything. -/
def cEnvFull : Env :=
  { argv := ["C:\\bin\\StripChromeSymbols.py", "trace.etl"],
    ntSymbolPath := "SRV*c:\\symbols*https://chromium-browser-symsrv",
    exists0 := fullFs,
    dumpLines := [chromeLine],
    retrieveLines := fun _ _ _ => ["Found symbol file - placed it in c:\\cache\\chrome.dll.pdb\n"],
    stripToolLines := fun _ _ => [],
    afterGen := fun _ => true,
    tempdirName := fun n => "c:\\tmp\\t" ++ toString n }

/-- Like `cEnvFull` but the derived symcache file already exists on disk,
so the second-run (idempotence) path is taken. -/
def cEnvCached : Env :=
  { cEnvFull with exists0 := fun s => fullFs s || s == chromeName }

/-- Environment where the script is run from outside its own directory:
the staged copy exists next to the script, but no bare-name file exists
relative to the working directory. -/
def cEnvOverwrite : Env :=
  { cEnvFull with
    exists0 := fun s =>
      s == "dbghelp.dll" || s == "symsrv.dll" ||
      s == "C:\\bin\\pdbcopy.exe" || s == "C:\\bin\\RetrieveSymbols.exe",
    dumpLines := [] }

/-- Environment where retrieval yields no placed-it-in line and the locally
reported PDB path does not exist: the single entry fails. -/
def cEnvFail : Env :=
  { cEnvFull with
    retrieveLines := fun _ _ _ => ["Verifying connection to server...\n"] }

/-- Small oracle environment for per-entry theorems: retrieval output is
empty. -/
def cEnvNoPlaced : Env :=
  { cEnvFull with retrieveLines := fun _ _ _ => [] }

/-- Loop state in which only the locally built PDB exists. -/
def cStateLocal : LoopState :=
  { fs := fun s => s == "C:\\build\\chrome.dll.pdb", foundUncached := false,
    symcacheFiles := [], localSymbolFiles := [], tempdirs := [],
    retrieveCalls := [], stripCalls := [], messages := [] }

/-- Loop state with an everywhere-false existence map. -/
def cStateEmpty : LoopState :=
  { fs := fun _ => false, foundUncached := false,
    symcacheFiles := [], localSymbolFiles := [], tempdirs := [],
    retrieveCalls := [], stripCalls := [], messages := [] }

end StripChromeSymbols

namespace StripChromeSymbols

/-! ### Helper lemmas -/

/-- The error fold of the verification loop is the disjunction of the
per-file misses. -/
lemma errFold (g : String → Bool) (l : List String) (b : Bool) :
    l.foldl (fun e f => if g f then e else true) b = (b || l.any fun f => !g f) := by
  induction l generalizing b with
  | nil => simp
  | cons f l ih =>
    rw [List.foldl_cons, List.any_cons, ih]
    cases hf : g f <;> simp

lemma finishRun_exitCode (env : Env) (t : String) (c : List (String × String))
    (st : LoopState) : (finishRun env t c st).exitCode = 0 := by
  unfold finishRun; split <;> rfl

lemma finishRun_copies (env : Env) (t : String) (c : List (String × String))
    (st : LoopState) : (finishRun env t c st).copies = c := by
  unfold finishRun; split <;> rfl

/-- Branch equation: the usage gate. -/
lemma run_eq_usage (env : Env) (h : env.argv.length < 2) :
    run env = emptyResult env ["Usage: " ++ env.argv.headD "" ++ " trace.etl"] [] := by
  unfold run; rw [if_pos h]

/-- Branch equation: the symbol-server gate. -/
lemma run_eq_marker (env : Env) (h1 : ¬env.argv.length < 2)
    (hm : strContains env.ntSymbolPath "chromium-browser-symsrv" = false) :
    run env = emptyResult env
      ["Chromium symbol server is not in _NT_SYMBOL_PATH. No symbol stripping needed."] [] := by
  unfold run; rw [if_neg h1, if_pos hm]

/-- Branch equation: both gates passed. -/
lemma run_eq_staged (env : Env) (h1 : ¬env.argv.length < 2)
    (hm : strContains env.ntSymbolPath "chromium-browser-symsrv" = true) :
    run env = runStaged env (ospathSplit (env.argv.headD "")).1 := by
  unfold run
  rw [if_neg h1, if_neg (by simp [hm])]

/-- Branch equation: pdbcopy.exe missing after staging. -/
lemma runChecked_eq_noPdbcopy (env : Env) (d : String) (stage : StageResult)
    (h : osExists stage.fs (ospathJoin d "pdbcopy.exe") = false) :
    runChecked env d stage =
      emptyResult env ["pdbcopy.exe not found. No symbol stripping is possible."]
        stage.copies := by
  unfold runChecked; rw [if_pos h]

/-- Branch equation: RetrieveSymbols.exe missing after staging. -/
lemma runChecked_eq_noRetrieve (env : Env) (d : String) (stage : StageResult)
    (h1 : ¬osExists stage.fs (ospathJoin d "pdbcopy.exe") = false)
    (h2 : osExists stage.fs (ospathJoin d "RetrieveSymbols.exe") = false) :
    runChecked env d stage =
      emptyResult env ["RetrieveSymbols.exe not found. No symbol retrieval is possible."]
        stage.copies := by
  unfold runChecked; rw [if_neg h1, if_pos h2]

/-- Branch equation: both tools present, the main work runs. -/
lemma runChecked_eq_main (env : Env) (d : String) (stage : StageResult)
    (h1 : ¬osExists stage.fs (ospathJoin d "pdbcopy.exe") = false)
    (h2 : ¬osExists stage.fs (ospathJoin d "RetrieveSymbols.exe") = false) :
    runChecked env d stage =
      finishRun env ((env.argv.drop 1).headD "") stage.copies
        (env.dumpLines.foldl (processLine env (ospathJoin d "RetrieveSymbols.exe"))
          (initialState stage.fs ((env.argv.drop 1).headD ""))) := by
  unfold runChecked; rw [if_neg h1, if_neg h2]

/-- Updating one point to true preserves every point already true. -/
lemma fsUpdate_mono (f : String → Bool) (p q : String) (h : f q = true) :
    fsUpdate f p true q = true := by
  unfold fsUpdate
  split
  · rfl
  · exact h

/-- The symcache name is never the empty path, so `os.path.exists` on it
is just the existence map. -/
lemma osExists_symcacheName (fs : String → Bool) (g a : String) :
    osExists fs (symcacheName g a) = fs (symcacheName g a) := by
  unfold osExists symcacheName
  rw [if_neg]
  intro hc
  rw [String.data_append, String.data_append, String.data_append] at hc
  simp [List.isEmpty_iff] at hc

/-- A line that does not pass the filter-and-parse step leaves the loop
state unchanged. -/
lemma processLine_none (env : Env) (rp : String) (st : LoopState) (line : String)
    (h : parsedOf line = none) : processLine env rp st line = st := by
  unfold processLine
  rw [h]

/-- A matched line whose derived symcache file already exists leaves the
loop state unchanged (the `continue` of line 111). -/
lemma processLine_cached (env : Env) (rp : String) (st : LoopState) (line g a p : String)
    (h : parsedOf line = some (g, a, p))
    (hc : osExists st.fs (symcacheName g a) = true) :
    processLine env rp st line = st := by
  unfold processLine
  rw [h]
  simp only [symcacheName] at hc
  simp [hc]

/-- The loop never deletes from the existence map: any path that exists
keeps existing across one iteration. -/
lemma processLine_fs_mono (env : Env) (rp : String) (st : LoopState) (line q : String)
    (h : st.fs q = true) : (processLine env rp st line).fs q = true := by
  cases hp : parsedOf line with
  | none => rw [processLine_none env rp st line hp]; exact h
  | some t =>
    obtain ⟨g, a, p⟩ := t
    unfold processLine
    rw [hp]
    simp only
    split
    · exact h
    · split
      · exact fsUpdate_mono _ _ _ (fsUpdate_mono _ _ _ h)
      · split
        · exact fsUpdate_mono _ _ _ (fsUpdate_mono _ _ _ h)
        · exact h

/-- Staging only adds files: any path that exists keeps existing. -/
lemma stageLoop_fs_mono (d : String) (l : List String) (fs : String → Bool)
    (cs : List (String × String)) (q : String) (h : fs q = true) :
    (stageLoop d l fs cs).fs q = true := by
  induction l generalizing fs cs with
  | nil => exact h
  | cons tp rest ih =>
    unfold stageLoop
    split
    · exact ih _ _ h
    · exact ih _ _ (fsUpdate_mono _ _ _ h)

/-- When the symcache file of every parsed line already exists initially, the
whole scanning loop is the identity on the loop state. -/
lemma loop_skip (env : Env) (rp : String) (lines : List String) :
    ∀ st : LoopState,
      (∀ line ∈ lines, ∀ g a p, parsedOf line = some (g, a, p) →
        env.exists0 (symcacheName g a) = true) →
      (∀ q, env.exists0 q = true → st.fs q = true) →
      lines.foldl (processLine env rp) st = st := by
  induction lines with
  | nil => intro st _ _; rfl
  | cons line rest ih =>
    intro st hall hmono
    rw [List.foldl_cons]
    have hline : processLine env rp st line = st := by
      cases hp : parsedOf line with
      | none => exact processLine_none env rp st line hp
      | some t =>
        obtain ⟨g, a, p⟩ := t
        have hex : env.exists0 (symcacheName g a) = true := hall line (by simp) g a p hp
        have hfs : osExists st.fs (symcacheName g a) = true := by
          rw [osExists_symcacheName]
          exact hmono _ hex
        exact processLine_cached env rp st line g a p hp hfs
    rw [hline]
    exact ih st (fun l hl => hall l (by simp [hl])) hmono

/-- Reading a point other than the updated one sees the old map. -/
lemma fsUpdate_ne (f : String → Bool) (p q : String) (b : Bool) (h : q ≠ p) :
    fsUpdate f p b q = f q := by
  unfold fsUpdate
  exact if_neg h

/-- For a nonempty path, `os.path.exists` is the existence map itself. -/
lemma osExists_of_ne_nil (fs : String → Bool) (p : String)
    (h : p.data.isEmpty = false) : osExists fs p = fs p := by
  unfold osExists
  rw [h]
  simp

/-- Splitting on separators never yields the empty component list. -/
lemma splitSeps_ne_nil (cs : List Char) : splitSeps cs ≠ [] := by
  cases cs with
  | nil => simp [splitSeps]
  | cons c rest =>
    unfold splitSeps
    split
    · simp
    · rcases h : splitSeps rest with _ | ⟨g, gs⟩ <;> simp [h]

/-- Equation: splitting at a separator head. -/
lemma splitSeps_cons_sep (c : Char) (rest : List Char) (hc : isSep c = true) :
    splitSeps (c :: rest) = [] :: splitSeps rest := by
  conv_lhs => rw [splitSeps]
  rw [if_pos hc]

/-- Equation: splitting at a non-separator head. -/
lemma splitSeps_cons_nosep (c : Char) (rest : List Char) (hc : isSep c = false) :
    splitSeps (c :: rest) =
      match splitSeps rest with
      | g :: gs => (c :: g) :: gs
      | [] => [[c]] := by
  conv_lhs => rw [splitSeps]
  rw [hc, if_neg Bool.false_ne_true]

/-- Splitting distributes over a separator occurrence. -/
lemma splitSeps_append (c : Char) (hc : isSep c = true) (xs ys : List Char) :
    splitSeps (xs ++ c :: ys) = splitSeps xs ++ splitSeps ys := by
  induction xs with
  | nil =>
    rw [List.nil_append, splitSeps_cons_sep c ys hc]
    rfl
  | cons x xs ih =>
    rw [List.cons_append]
    cases hx : isSep x
    · rw [splitSeps_cons_nosep x (xs ++ c :: ys) hx, splitSeps_cons_nosep x xs hx, ih]
      rcases h : splitSeps xs with _ | ⟨g, gs⟩
      · exact absurd h (splitSeps_ne_nil xs)
      · simp
    · rw [splitSeps_cons_sep x (xs ++ c :: ys) hx, splitSeps_cons_sep x xs hx, ih]
      simp

/-- A separator-free list is a single component. -/
lemma splitSeps_noSep (cs : List Char) (h : ∀ c ∈ cs, isSep c = false) :
    splitSeps cs = [cs] := by
  induction cs with
  | nil => rfl
  | cons c rest ih =>
    rw [splitSeps_cons_nosep c rest (h c (by simp)),
      ih (fun x hx => h x (by simp [hx]))]

/-- Equation: a skippable component (empty or dot). -/
lemma normStack_cons_skip (stack : List (List Char)) (c : List Char)
    (rest : List (List Char)) (h : (c == [] || c == ['.']) = true) :
    normStack stack (c :: rest) = normStack stack rest := by
  rw [normStack.eq_def]
  dsimp only
  rw [if_pos h]

/-- Equation: an ordinary component is pushed. -/
lemma normStack_cons_push (stack : List (List Char)) (c : List Char)
    (rest : List (List Char)) (hskip : (c == [] || c == ['.']) = false)
    (hdd : (c == ['.', '.']) = false) :
    normStack stack (c :: rest) = normStack (c :: stack) rest := by
  rw [normStack.eq_def]
  dsimp only
  rw [hskip, if_neg Bool.false_ne_true, hdd, if_neg Bool.false_ne_true]

/-- Equation: a double-dot component inspects the stack. -/
lemma normStack_cons_dd (stack : List (List Char)) (c : List Char)
    (rest : List (List Char)) (hskip : (c == [] || c == ['.']) = false)
    (hdd : (c == ['.', '.']) = true) :
    normStack stack (c :: rest) =
      match stack with
      | [] => normStack [['.', '.']] rest
      | t :: below =>
        if (t == ['.', '.']) = true then normStack (c :: stack) rest
        else normStack below rest := by
  rw [normStack.eq_def]
  dsimp only
  rw [hskip, if_neg Bool.false_ne_true, if_pos hdd]

/-- Normalization keeps a final component that is not empty, a dot, or a
double dot (nothing after it can pop it off the stack). -/
lemma normStack_last (t : List Char) (h1 : (t == []) = false)
    (h2 : (t == ['.']) = false) (h3 : (t == ['.', '.']) = false) :
    ∀ (cs stack : List (List Char)), ∃ pre, normStack stack (cs ++ [t]) = pre ++ [t] := by
  intro cs
  induction cs with
  | nil =>
    intro stack
    refine ⟨stack.reverse, ?_⟩
    show normStack stack [t] = stack.reverse ++ [t]
    have hskip : (t == [] || t == ['.']) = false := by simp [h1, h2]
    rw [normStack_cons_push stack t [] hskip h3]
    show (t :: stack).reverse = stack.reverse ++ [t]
    exact List.reverse_cons t stack
  | cons c cs ih =>
    intro stack
    rw [List.cons_append]
    by_cases hskip : (c == [] || c == ['.']) = true
    · rw [normStack_cons_skip stack c _ hskip]
      exact ih stack
    · have hskip2 : (c == [] || c == ['.']) = false := Bool.eq_false_iff.mpr hskip
      by_cases hdd : (c == ['.', '.']) = true
      · rw [normStack_cons_dd stack c _ hskip2 hdd]
        cases stack with
        | nil => exact ih _
        | cons t2 below =>
          dsimp only
          by_cases ht2 : (t2 == ['.', '.']) = true
          · rw [if_pos ht2]
            exact ih _
          · rw [if_neg ht2]
            exact ih _
      · have hdd2 : (c == ['.', '.']) = false := Bool.eq_false_iff.mpr hdd
        rw [normStack_cons_push stack c _ hskip2 hdd2]
        exact ih _

/-- The final component survives re-joining as a suffix. -/
lemma suffix_intercalateBS (t : List Char) :
    ∀ pre : List (List Char), t <:+ intercalateBS (pre ++ [t]) := by
  intro pre
  induction pre with
  | nil =>
    show t <:+ intercalateBS [t]
    exact List.suffix_refl t
  | cons g pre ih =>
    rcases hp : pre ++ [t] with _ | ⟨q, qs⟩
    · simp at hp
    · rw [List.cons_append, hp]
      have h2 : intercalateBS (q :: qs) <:+ g ++ '\\' :: intercalateBS (q :: qs) := by
        have h3 := List.suffix_append (g ++ ['\\']) (intercalateBS (q :: qs))
        simpa using h3
      have ih2 : t <:+ intercalateBS (q :: qs) := by rw [← hp]; exact ih
      exact ih2.trans h2

/-- If the component split of a path ends in a stable component `t`, then
`t` is a suffix of the normalized path. -/
lemma ospathNormpath_suffix (p : String) (t : List Char) (X : List (List Char))
    (hX : splitSeps p.data = X ++ [t])
    (h1 : (t == []) = false) (h2 : (t == ['.']) = false)
    (h3 : (t == ['.', '.']) = false) :
    t <:+ (ospathNormpath p).data := by
  obtain ⟨pre, hpre⟩ := normStack_last t h1 h2 h3 X []
  have hval : ospathNormpath p = String.mk (intercalateBS (pre ++ [t])) := by
    unfold ospathNormpath
    rw [hX, hpre]
    rw [if_neg (by simp)]
  rw [hval]
  exact suffix_intercalateBS t pre

/-- The staged destination of a separator-free, non-dot file name keeps
that file name as a suffix, for every script directory. -/
lemma stagingDest_suffix (d tp : String)
    (h1 : (tp.data == []) = false) (h2 : (tp.data == ['.']) = false)
    (h3 : (tp.data == ['.', '.']) = false)
    (hsep : ∀ c ∈ tp.data, isSep c = false) :
    tp.data <:+ (stagingDest d tp).data := by
  have hne : tp.data ≠ [] := by
    intro hh
    rw [hh] at h1
    simp at h1
  have hsplit : ∃ X, splitSeps (ospathJoin d tp).data = X ++ [tp.data] := by
    unfold ospathJoin
    by_cases hd : d.data.isEmpty = true
    · rw [if_pos hd]
      exact ⟨[], by rw [splitSeps_noSep tp.data hsep, List.nil_append]⟩
    · rw [if_neg hd]
      have hhead : isSep (tp.data.headD ' ') = false := by
        rcases htp : tp.data with _ | ⟨c, cs⟩
        · exact absurd htp hne
        · rw [List.headD_cons]
          exact hsep c (by rw [htp]; exact List.mem_cons_self c cs)
      rw [hhead, if_neg Bool.false_ne_true]
      by_cases hlast : isSep (d.data.getLastD ' ') = true
      · rw [if_pos hlast]
        rcases List.eq_nil_or_concat d.data with hnil | ⟨L, b, hLb⟩
        · rw [hnil] at hd; simp at hd
        · have hb : isSep b = true := by
            rw [hLb, List.concat_eq_append, List.getLastD_concat] at hlast
            exact hlast
          refine ⟨splitSeps L, ?_⟩
          show splitSeps (d.data ++ tp.data) = _
          rw [hLb, List.concat_eq_append, List.append_assoc, List.singleton_append,
            splitSeps_append b hb L tp.data, splitSeps_noSep tp.data hsep]
      · rw [if_neg hlast]
        refine ⟨splitSeps d.data, ?_⟩
        show splitSeps (d.data ++ '\\' :: tp.data) = _
        rw [splitSeps_append '\\' rfl d.data tp.data, splitSeps_noSep tp.data hsep]
  obtain ⟨X, hX⟩ := hsplit
  exact ospathNormpath_suffix (ospathJoin d tp) tp.data X hX h1 h2 h3

/-- A staged destination of one support file can never equal a different
bare support-file name (the names are not suffixes of one another). -/
lemma stagingDest_ne (d tp tq : String)
    (h1 : (tp.data == []) = false) (h2 : (tp.data == ['.']) = false)
    (h3 : (tp.data == ['.', '.']) = false)
    (hsep : ∀ c ∈ tp.data, isSep c = false)
    (hnsuf : ¬tp.data <:+ tq.data) :
    stagingDest d tp ≠ tq := by
  intro he
  apply hnsuf
  have hs := stagingDest_suffix d tp h1 h2 h3 hsep
  rw [he] at hs
  exact hs

/-- The staging loop performs exactly one copy per support file whose bare
name does not exist relative to the working directory, in list order,
provided staged destinations never collide with later bare names. -/
lemma stageLoop_filterMap (d : String) (l : List String) :
    ∀ (fs : String → Bool) (cs : List (String × String)),
      (∀ tp ∈ l, tp.data.isEmpty = false) →
      l.Pairwise (fun tp tq => stagingDest d tp ≠ tq) →
      (stageLoop d l fs cs).copies =
        cs ++ (l.filter (fun tp => !fs tp)).map
          (fun tp => (stagingSource d tp, stagingDest d tp)) := by
  induction l with
  | nil =>
    intro fs cs _ _
    simp [stageLoop]
  | cons tp rest ih =>
    intro fs cs hne hpw
    have htp : osExists fs tp = fs tp := osExists_of_ne_nil fs tp (hne tp (by simp))
    rcases List.pairwise_cons.mp hpw with ⟨hhead, htail⟩
    unfold stageLoop
    rw [htp]
    cases hf : fs tp
    · rw [if_neg Bool.false_ne_true]
      rw [ih (fsUpdate fs (stagingDest d tp) true)
        (cs ++ [(stagingSource d tp, stagingDest d tp)])
        (fun q hq => hne q (by simp [hq])) htail]
      have hfc : rest.filter (fun tq => !fsUpdate fs (stagingDest d tp) true tq)
          = rest.filter (fun tq => !fs tq) :=
        List.filter_congr
          (fun tq hq => by rw [fsUpdate_ne fs _ tq true (fun hh => hhead tq hq hh.symm)])
      rw [hfc]
      simp [List.filter_cons, hf]
    · rw [if_pos rfl]
      rw [ih fs cs (fun q hq => hne q (by simp [hq])) htail]
      simp [List.filter_cons, hf]

/-- The three support files of the script satisfy the collision side
conditions, so staging copies exactly the bare names that do not exist. -/
lemma stageLoop_copies (d : String) (fs : String → Bool) :
    (stageLoop d threeSupportFiles fs []).copies =
      (threeSupportFiles.filter (fun tp => !fs tp)).map
        (fun tp => (stagingSource d tp, stagingDest d tp)) := by
  have hpw : threeSupportFiles.Pairwise (fun tp tq => stagingDest d tp ≠ tq) := by
    unfold threeSupportFiles
    refine List.pairwise_cons.mpr ⟨?_, List.pairwise_cons.mpr ⟨?_,
      List.pairwise_cons.mpr ⟨by simp, List.Pairwise.nil⟩⟩⟩
    · intro tq hq
      simp only [List.mem_cons, List.not_mem_nil, or_false] at hq
      rcases hq with rfl | rfl
      · exact stagingDest_ne d _ _ (by decide) (by decide) (by decide) (by decide) (by decide)
      · exact stagingDest_ne d _ _ (by decide) (by decide) (by decide) (by decide) (by decide)
    · intro tq hq
      simp only [List.mem_cons, List.not_mem_nil, or_false] at hq
      rcases hq with rfl
      exact stagingDest_ne d _ _ (by decide) (by decide) (by decide) (by decide) (by decide)
  rw [stageLoop_filterMap d threeSupportFiles fs [] (by decide) hpw]
  simp

/-- Every uncached matched entry appends its expected symcache name to
the verification list, before and regardless of the retrieval outcome
(line 115 of the script runs ahead of the retrieval invocation). -/
lemma processLine_appends_name (env : Env) (rp : String) (st : LoopState)
    (line g a p : String)
    (hline : parsedOf line = some (g, a, p))
    (hmiss : osExists st.fs (symcacheName g a) = false) :
    (processLine env rp st line).symcacheFiles =
      st.symcacheFiles ++ [symcacheName g a] := by
  unfold processLine
  rw [hline]
  simp only [symcacheName] at hmiss ⊢
  rw [hmiss, if_neg Bool.false_ne_true]
  split
  · simp [stripInto]
  · split
    · simp [stripInto]
    · simp

/-- Cleanup behavior of the finale: all generated means all temporary
directories deleted, any miss means none deleted and the retention
message printed. -/
lemma finishRun_cleanup (env : Env) (t : String) (c : List (String × String))
    (st : LoopState) (h : (finishRun env t c st).cacheBuild = true) :
    ((∀ f ∈ (finishRun env t c st).symcacheFiles, env.afterGen f = true) →
      (finishRun env t c st).rmtrees = (finishRun env t c st).tempdirs) ∧
    ((∃ f ∈ (finishRun env t c st).symcacheFiles, env.afterGen f = false) →
      (finishRun env t c st).rmtrees = [] ∧
      "Retaining PDBs to allow rerunning xperf command-line."
        ∈ (finishRun env t c st).messages) := by
  unfold finishRun
  unfold finishRun at h
  split
  · next he => rw [if_pos he] at h; simp at h
  · next he =>
    rw [if_neg he] at h
    dsimp only
    rw [errFold, Bool.false_or]
    constructor
    · intro hall
      have hany : (st.symcacheFiles.any fun f => !env.afterGen f) = false := by
        cases hany : st.symcacheFiles.any fun f => !env.afterGen f
        · rfl
        · obtain ⟨f, hf, hne⟩ := List.any_eq_true.mp hany
          rw [Bool.not_eq_true'] at hne
          rw [hall f hf] at hne
          cases hne
      rw [hany]
      rfl
    · rintro ⟨f, hf, hfalse⟩
      have hany : (st.symcacheFiles.any fun f => !env.afterGen f) = true :=
        List.any_eq_true.mpr ⟨f, hf, by rw [hfalse]; rfl⟩
      rw [hany]
      refine ⟨rfl, ?_⟩
      simp [List.mem_append]

/-! ### Claim theorems -/

/-- C8: on every designed execution path modelled here (missing argument,
missing marker, missing tools, per-entry failures, verification failures,
full success — i.e. every environment oracle, with external operations
succeeding) the program terminates with exit status 0; the embedding is a
total function, reflecting that no anticipated failure raises. -/
theorem C8_always_exit_zero (env : Env) : (run env).exitCode = 0 := by
  by_cases h1 : env.argv.length < 2
  · rw [run_eq_usage env h1]; rfl
  · cases hm : strContains env.ntSymbolPath "chromium-browser-symsrv"
    · rw [run_eq_marker env h1 hm]; rfl
    · rw [run_eq_staged env h1 hm]
      unfold runStaged
      by_cases hc1 : osExists (stageLoop (ospathSplit (env.argv.headD "")).1
          threeSupportFiles env.exists0 []).fs
          (ospathJoin (ospathSplit (env.argv.headD "")).1 "pdbcopy.exe") = false
      · rw [runChecked_eq_noPdbcopy _ _ _ hc1]; rfl
      · by_cases hc2 : osExists (stageLoop (ospathSplit (env.argv.headD "")).1
            threeSupportFiles env.exists0 []).fs
            (ospathJoin (ospathSplit (env.argv.headD "")).1 "RetrieveSymbols.exe") = false
        · rw [runChecked_eq_noRetrieve _ _ _ hc1 hc2]; rfl
        · rw [runChecked_eq_main _ _ _ hc1 hc2]
          exact finishRun_exitCode _ _ _ _

/-- C9: with no trace-file argument the program prints only the usage
message and exits with status 0, performing no file operation, no
subprocess invocation, and no rename. -/
theorem C9_usage_exit (env : Env) (h : env.argv.length < 2) :
    (run env).exitCode = 0 ∧
    (run env).messages = ["Usage: " ++ env.argv.headD "" ++ " trace.etl"] ∧
    (run env).copies = [] ∧ (run env).retrieveCalls = [] ∧
    (run env).stripCalls = [] ∧ (run env).tempdirs = [] ∧
    (run env).renamesBefore = [] ∧ (run env).cacheBuild = false ∧
    (run env).rmtrees = [] ∧ (run env).dumpInvoked = false := by
  unfold run
  rw [if_pos h]
  exact ⟨rfl, rfl, rfl, rfl, rfl, rfl, rfl, rfl, rfl, rfl⟩

/-- C9 witness: the usage path at a concrete one-element argv. -/
theorem C9_usage_exit_witness :
    (run cEnvUsage).exitCode = 0 ∧
    (run cEnvUsage).messages = ["Usage: " ++ cEnvUsage.argv.headD "" ++ " trace.etl"] ∧
    (run cEnvUsage).copies = [] ∧ (run cEnvUsage).retrieveCalls = [] ∧
    (run cEnvUsage).stripCalls = [] ∧ (run cEnvUsage).tempdirs = [] ∧
    (run cEnvUsage).renamesBefore = [] ∧ (run cEnvUsage).cacheBuild = false ∧
    (run cEnvUsage).rmtrees = [] ∧ (run cEnvUsage).dumpInvoked = false :=
  C9_usage_exit cEnvUsage (by decide)

/-- C4: when the symbol-search-path string does not contain the marker
substring, the run exits with status 0 having performed no staging copy,
no subprocess invocation, no temporary directory and no rename; when the
trace argument is present the only output is the informational message. -/
theorem C4_no_marker_early_exit (env : Env)
    (h : strContains env.ntSymbolPath "chromium-browser-symsrv" = false) :
    (run env).exitCode = 0 ∧ (run env).copies = [] ∧
    (run env).retrieveCalls = [] ∧ (run env).stripCalls = [] ∧
    (run env).tempdirs = [] ∧ (run env).renamesBefore = [] ∧
    (run env).renamesAfter = [] ∧ (run env).cacheBuild = false ∧
    (run env).rmtrees = [] ∧ (run env).dumpInvoked = false ∧
    (2 ≤ env.argv.length →
      (run env).messages =
        ["Chromium symbol server is not in _NT_SYMBOL_PATH. No symbol stripping needed."]) := by
  by_cases h1 : env.argv.length < 2
  · rw [run_eq_usage env h1]
    exact ⟨rfl, rfl, rfl, rfl, rfl, rfl, rfl, rfl, rfl, rfl, fun h2 => absurd h1 (by omega)⟩
  · rw [run_eq_marker env h1 h]
    exact ⟨rfl, rfl, rfl, rfl, rfl, rfl, rfl, rfl, rfl, rfl, fun _ => rfl⟩

/-- C4 witness: the marker-free path at a concrete environment. -/
theorem C4_no_marker_early_exit_witness :
    (run cEnvNoMarker).exitCode = 0 ∧ (run cEnvNoMarker).copies = [] ∧
    (run cEnvNoMarker).retrieveCalls = [] ∧ (run cEnvNoMarker).stripCalls = [] ∧
    (run cEnvNoMarker).tempdirs = [] ∧ (run cEnvNoMarker).renamesBefore = [] ∧
    (run cEnvNoMarker).renamesAfter = [] ∧ (run cEnvNoMarker).cacheBuild = false ∧
    (run cEnvNoMarker).rmtrees = [] ∧ (run cEnvNoMarker).dumpInvoked = false ∧
    (2 ≤ cEnvNoMarker.argv.length →
      (run cEnvNoMarker).messages =
        ["Chromium symbol server is not in _NT_SYMBOL_PATH. No symbol stripping needed."]) :=
  C4_no_marker_early_exit cEnvNoMarker (by decide)

/-- C1: every rename performed before the cache-build invocation is
reversed, in the same order, after it, on success and failure paths alike
(the restore loop runs before verification and does not depend on its
outcome): the after-renames are exactly the swaps of the before-renames,
so each renamed local symbol file is renamed back exactly once per forward
rename and no file is left under its renamed name. -/
theorem C1_renames_reversed (env : Env) :
    (run env).renamesAfter = (run env).renamesBefore.map (fun q => (q.2, q.1)) ∧
    ((run env).cacheBuild = true →
      (run env).renamesBefore =
        (run env).localSymbolFiles.map (fun l => (l, l ++ "x"))) ∧
    ((run env).cacheBuild = false → (run env).renamesBefore = []) := by
  have hfin : ∀ (e : Env) (t : String) (c : List (String × String)) (st : LoopState),
      (finishRun e t c st).renamesAfter =
        (finishRun e t c st).renamesBefore.map (fun q => (q.2, q.1)) ∧
      ((finishRun e t c st).cacheBuild = true →
        (finishRun e t c st).renamesBefore =
          (finishRun e t c st).localSymbolFiles.map (fun l => (l, l ++ "x"))) ∧
      ((finishRun e t c st).cacheBuild = false →
        (finishRun e t c st).renamesBefore = []) := by
    intro e t c st
    unfold finishRun
    split
    · exact ⟨rfl, fun h => by simp at h, fun _ => rfl⟩
    · refine ⟨?_, fun _ => rfl, fun h => by simp at h⟩
      rw [List.map_map]
      rfl
  by_cases h1 : env.argv.length < 2
  · rw [run_eq_usage env h1]
    exact ⟨rfl, fun _ => rfl, fun _ => rfl⟩
  · cases hm : strContains env.ntSymbolPath "chromium-browser-symsrv"
    · rw [run_eq_marker env h1 hm]
      exact ⟨rfl, fun _ => rfl, fun _ => rfl⟩
    · rw [run_eq_staged env h1 hm]
      unfold runStaged
      by_cases hc1 : osExists (stageLoop (ospathSplit (env.argv.headD "")).1
          threeSupportFiles env.exists0 []).fs
          (ospathJoin (ospathSplit (env.argv.headD "")).1 "pdbcopy.exe") = false
      · rw [runChecked_eq_noPdbcopy _ _ _ hc1]
        exact ⟨rfl, fun _ => rfl, fun _ => rfl⟩
      · by_cases hc2 : osExists (stageLoop (ospathSplit (env.argv.headD "")).1
            threeSupportFiles env.exists0 []).fs
            (ospathJoin (ospathSplit (env.argv.headD "")).1 "RetrieveSymbols.exe") = false
        · rw [runChecked_eq_noRetrieve _ _ _ hc1 hc2]
          exact ⟨rfl, fun _ => rfl, fun _ => rfl⟩
        · rw [runChecked_eq_main _ _ _ hc1 hc2]
          exact hfin _ _ _ _

/-- C1 witness: the reversal property at a concrete full run. -/
theorem C1_renames_reversed_witness :
    (run cEnvFull).renamesAfter =
      (run cEnvFull).renamesBefore.map (fun q => (q.2, q.1)) :=
  (C1_renames_reversed cEnvFull).1

/-- C2: whenever the cache-build step ran, if every recorded symcache file
exists afterwards then every temporary directory is deleted, and if at
least one is missing then none is deleted and the retention message is
reported. -/
theorem C2_cleanup_iff_all_generated (env : Env) (h : (run env).cacheBuild = true) :
    ((∀ f ∈ (run env).symcacheFiles, env.afterGen f = true) →
      (run env).rmtrees = (run env).tempdirs) ∧
    ((∃ f ∈ (run env).symcacheFiles, env.afterGen f = false) →
      (run env).rmtrees = [] ∧
      "Retaining PDBs to allow rerunning xperf command-line." ∈ (run env).messages) := by
  by_cases h1 : env.argv.length < 2
  · rw [run_eq_usage env h1] at h; simp [emptyResult] at h
  · cases hm : strContains env.ntSymbolPath "chromium-browser-symsrv"
    · rw [run_eq_marker env h1 hm] at h; simp [emptyResult] at h
    · rw [run_eq_staged env h1 hm] at h ⊢
      unfold runStaged at h ⊢
      by_cases hc1 : osExists (stageLoop (ospathSplit (env.argv.headD "")).1
          threeSupportFiles env.exists0 []).fs
          (ospathJoin (ospathSplit (env.argv.headD "")).1 "pdbcopy.exe") = false
      · rw [runChecked_eq_noPdbcopy _ _ _ hc1] at h; simp [emptyResult] at h
      · by_cases hc2 : osExists (stageLoop (ospathSplit (env.argv.headD "")).1
            threeSupportFiles env.exists0 []).fs
            (ospathJoin (ospathSplit (env.argv.headD "")).1 "RetrieveSymbols.exe") = false
        · rw [runChecked_eq_noRetrieve _ _ _ hc1 hc2] at h; simp [emptyResult] at h
        · rw [runChecked_eq_main _ _ _ hc1 hc2] at h ⊢
          exact finishRun_cleanup _ _ _ _ h

/-- C2 witness: the all-generated direction at a concrete full run. -/
theorem C2_cleanup_iff_all_generated_witness :
    (run cEnvFull).rmtrees = (run cEnvFull).tempdirs :=
  (C2_cleanup_iff_all_generated cEnvFull (by decide)).1 (by decide)

/-- C3: a matched trace line whose derived cache file already exists on
disk leaves the loop state untouched (no retrieval, no stripping, no
temporary directory for that line), and when every parsed line of the
dump is already cached the whole run performs no retrieval, stripping or
cache-build invocation. -/
theorem C3_cached_skip_idempotent (env : Env)
    (h : env.dumpLines.all
          (fun line =>
            match parsedOf line with
            | some (g, a, _) => env.exists0 (symcacheName g a)
            | none => true) = true) :
    (∀ rp st line g a p, parsedOf line = some (g, a, p) →
      osExists st.fs (symcacheName g a) = true →
      processLine env rp st line = st) ∧
    (run env).retrieveCalls = [] ∧ (run env).stripCalls = [] ∧
    (run env).tempdirs = [] ∧ (run env).cacheBuild = false := by
  have hall : ∀ line ∈ env.dumpLines, ∀ g a p, parsedOf line = some (g, a, p) →
      env.exists0 (symcacheName g a) = true := by
    intro line hl g a p hp
    have := List.all_eq_true.mp h line hl
    rw [hp] at this
    exact this
  refine ⟨fun rp st line g a p hp hc => processLine_cached env rp st line g a p hp hc, ?_⟩
  by_cases h1 : env.argv.length < 2
  · rw [run_eq_usage env h1]; exact ⟨rfl, rfl, rfl, rfl⟩
  · cases hm : strContains env.ntSymbolPath "chromium-browser-symsrv"
    · rw [run_eq_marker env h1 hm]; exact ⟨rfl, rfl, rfl, rfl⟩
    · rw [run_eq_staged env h1 hm]
      unfold runStaged
      by_cases hc1 : osExists (stageLoop (ospathSplit (env.argv.headD "")).1
          threeSupportFiles env.exists0 []).fs
          (ospathJoin (ospathSplit (env.argv.headD "")).1 "pdbcopy.exe") = false
      · rw [runChecked_eq_noPdbcopy _ _ _ hc1]; exact ⟨rfl, rfl, rfl, rfl⟩
      · by_cases hc2 : osExists (stageLoop (ospathSplit (env.argv.headD "")).1
            threeSupportFiles env.exists0 []).fs
            (ospathJoin (ospathSplit (env.argv.headD "")).1 "RetrieveSymbols.exe") = false
        · rw [runChecked_eq_noRetrieve _ _ _ hc1 hc2]; exact ⟨rfl, rfl, rfl, rfl⟩
        · rw [runChecked_eq_main _ _ _ hc1 hc2]
          rw [loop_skip env _ env.dumpLines _ hall
            (fun q hq => stageLoop_fs_mono _ _ _ _ _ hq)]
          unfold finishRun
          have hemp : (initialState (stageLoop (ospathSplit (env.argv.headD "")).1
              threeSupportFiles env.exists0 []).fs
              ((env.argv.drop 1).headD "")).tempdirs.isEmpty = true := rfl
          rw [if_pos hemp]
          exact ⟨rfl, rfl, rfl, rfl⟩

/-- C3 witness: the second run over an already-cached trace performs no
retrieval, stripping or cache-build invocation. -/
theorem C3_cached_skip_idempotent_witness :
    (run cEnvCached).retrieveCalls = [] ∧ (run cEnvCached).stripCalls = [] ∧
    (run cEnvCached).tempdirs = [] ∧ (run cEnvCached).cacheBuild = false :=
  (C3_cached_skip_idempotent cEnvCached (by decide)).2

/-- C5 counterexample: run from outside the script directory with the
support file already staged next to the script but absent from the
working directory, the staging loop copies (and thus overwrites) anyway —
the existence check of line 66 tests the bare name against the working
directory, not the staged destination. -/
theorem C5_counterexample :
    (run cEnvOverwrite).copies =
      [("C:\\third_party\\pdbcopy.exe", "C:\\bin\\pdbcopy.exe")] ∧
    cEnvOverwrite.exists0 "C:\\bin\\pdbcopy.exe" = true := by
  constructor
  · decide
  · decide

/-- C5 as amended: for each support file the staging step copies exactly
when no file of that bare name exists relative to the current working
directory; this coincides with checking the staged destination only when
the script runs from its own directory, and an already-staged copy is
overwritten otherwise. -/
theorem C5_staging_checks_cwd (env : Env) (h2 : 2 ≤ env.argv.length)
    (hm : strContains env.ntSymbolPath "chromium-browser-symsrv" = true) :
    (run env).copies =
      (threeSupportFiles.filter (fun tp => !env.exists0 tp)).map
        (fun tp => (stagingSource (ospathSplit (env.argv.headD "")).1 tp,
                    stagingDest (ospathSplit (env.argv.headD "")).1 tp)) := by
  have h1 : ¬env.argv.length < 2 := by omega
  rw [run_eq_staged env h1 hm]
  unfold runStaged
  have hst := stageLoop_copies (ospathSplit (env.argv.headD "")).1 env.exists0
  by_cases hc1 : osExists (stageLoop (ospathSplit (env.argv.headD "")).1
      threeSupportFiles env.exists0 []).fs
      (ospathJoin (ospathSplit (env.argv.headD "")).1 "pdbcopy.exe") = false
  · rw [runChecked_eq_noPdbcopy _ _ _ hc1]
    exact hst
  · by_cases hc2 : osExists (stageLoop (ospathSplit (env.argv.headD "")).1
        threeSupportFiles env.exists0 []).fs
        (ospathJoin (ospathSplit (env.argv.headD "")).1 "RetrieveSymbols.exe") = false
    · rw [runChecked_eq_noRetrieve _ _ _ hc1 hc2]
      exact hst
    · rw [runChecked_eq_main _ _ _ hc1 hc2, finishRun_copies]
      exact hst

/-- C5 amended witness: the staging equation at the concrete overwrite
environment. -/
theorem C5_staging_checks_cwd_witness :
    (run cEnvOverwrite).copies =
      (threeSupportFiles.filter (fun tp => !cEnvOverwrite.exists0 tp)).map
        (fun tp => (stagingSource (ospathSplit (cEnvOverwrite.argv.headD "")).1 tp,
                    stagingDest (ospathSplit (cEnvOverwrite.argv.headD "")).1 tp)) :=
  C5_staging_checks_cwd cEnvOverwrite (by decide) (by decide)

/-- C6: for an uncached entry whose retrieval output names no placed
file, the original trace-reported path is used as the symbol file exactly
when it exists, and is then recorded as a local symbol file; when it does
not exist the entry is reported failed, no temporary directory is
created, no stripping happens, and the loop state otherwise carries on. -/
theorem C6_local_fallback (env : Env) (rp : String) (st : LoopState)
    (line g a p : String)
    (hline : parsedOf line = some (g, a, p))
    (hmiss : osExists st.fs (symcacheName g a) = false)
    (hretr : pyTruthy (lastPlaced
      (env.retrieveLines (stripDashes g) a (ospathSplit p).2)) = false) :
    (osExists st.fs p = true →
      (processLine env rp st line).localSymbolFiles = st.localSymbolFiles ++ [p] ∧
      (processLine env rp st line).tempdirs =
        st.tempdirs ++ [env.tempdirName st.tempdirs.length] ∧
      (processLine env rp st line).stripCalls =
        st.stripCalls ++
          [(p, ospathJoin (env.tempdirName st.tempdirs.length) (ospathSplit p).2)]) ∧
    (osExists st.fs p = false →
      (processLine env rp st line).tempdirs = st.tempdirs ∧
      (processLine env rp st line).stripCalls = st.stripCalls ∧
      (processLine env rp st line).localSymbolFiles = st.localSymbolFiles ∧
      "Failed to retrieve symbols. Check for RetrieveSymbols.exe and support files."
        ∈ (processLine env rp st line).messages) := by
  unfold processLine
  rw [hline]
  simp only [symcacheName] at hmiss
  dsimp only
  rw [hmiss, if_neg Bool.false_ne_true, hretr, if_neg Bool.false_ne_true]
  constructor
  · intro hp
    rw [if_pos hp]
    refine ⟨?_, ?_, ?_⟩ <;> simp [stripInto]
  · intro hp
    rw [if_neg (by simp [hp])]
    refine ⟨rfl, rfl, rfl, ?_⟩
    simp [List.mem_append]

/-- C6 witness: the fallback at a concrete state where only the local PDB
exists and the retrieval output is empty. -/
theorem C6_local_fallback_witness :
    (processLine cEnvNoPlaced "C:\\bin\\RetrieveSymbols.exe" cStateLocal
        chromeLine).localSymbolFiles =
      cStateLocal.localSymbolFiles ++ ["C:\\build\\chrome.dll.pdb"] ∧
    (processLine cEnvNoPlaced "C:\\bin\\RetrieveSymbols.exe" cStateLocal
        chromeLine).tempdirs =
      cStateLocal.tempdirs ++ [cEnvNoPlaced.tempdirName cStateLocal.tempdirs.length] ∧
    (processLine cEnvNoPlaced "C:\\bin\\RetrieveSymbols.exe" cStateLocal
        chromeLine).stripCalls =
      cStateLocal.stripCalls ++
        [("C:\\build\\chrome.dll.pdb",
          ospathJoin (cEnvNoPlaced.tempdirName cStateLocal.tempdirs.length)
            (ospathSplit "C:\\build\\chrome.dll.pdb").2)] :=
  (C6_local_fallback cEnvNoPlaced "C:\\bin\\RetrieveSymbols.exe" cStateLocal
    chromeLine "be90dbc6-fe31-4842-9c72-7e2ea88f0adf" "1" "C:\\build\\chrome.dll.pdb"
    (by decide) (by decide) (by decide)).1 (by decide)

/-- C7 counterexample: with one uncached entry whose retrieval and local
fallback both fail, the expected cache-file name is still recorded in the
verification list while no temporary directory and no stripping
invocation exist — contradicting the claim that recording happens only
together with the temporary directory and the stripping invocation. -/
theorem C7_counterexample :
    (run cEnvFail).symcacheFiles = [chromeName] ∧
    (run cEnvFail).tempdirs = [] ∧
    (run cEnvFail).stripCalls = [] ∧
    "Failed to retrieve symbols. Check for RetrieveSymbols.exe and support files."
      ∈ (run cEnvFail).messages := by
  refine ⟨by decide, by decide, by decide, by decide⟩

/-- C7 as amended: the expected cache-file name is recorded for every
uncached matched entry before retrieval is attempted, so an entry whose
retrieval and local fallback both fail still contributes its expected
cache-file name to the verification list; only the temporary directory
and stripping invocation are conditional on a usable symbol file. -/
theorem C7_records_before_retrieval (env : Env) (rp : String) (st : LoopState)
    (line g a p : String)
    (hline : parsedOf line = some (g, a, p))
    (hmiss : osExists st.fs (symcacheName g a) = false) :
    (processLine env rp st line).symcacheFiles =
      st.symcacheFiles ++ [symcacheName g a] ∧
    ((processLine env rp st line).tempdirs = st.tempdirs ∨
      (processLine env rp st line).tempdirs =
        st.tempdirs ++ [env.tempdirName st.tempdirs.length]) := by
  refine ⟨processLine_appends_name env rp st line g a p hline hmiss, ?_⟩
  unfold processLine
  rw [hline]
  simp only [symcacheName] at hmiss
  dsimp only
  rw [hmiss, if_neg Bool.false_ne_true]
  split
  · right; simp [stripInto]
  · split
    · right; simp [stripInto]
    · left; rfl

/-- C7 amended witness: the failed concrete entry still records its
expected cache-file name and creates no temporary directory. -/
theorem C7_records_before_retrieval_witness :
    (processLine cEnvFail "C:\\bin\\RetrieveSymbols.exe" cStateEmpty
        chromeLine).symcacheFiles =
      cStateEmpty.symcacheFiles ++
        [symcacheName "be90dbc6-fe31-4842-9c72-7e2ea88f0adf" "1"] ∧
    ((processLine cEnvFail "C:\\bin\\RetrieveSymbols.exe" cStateEmpty
        chromeLine).tempdirs = cStateEmpty.tempdirs ∨
      (processLine cEnvFail "C:\\bin\\RetrieveSymbols.exe" cStateEmpty
        chromeLine).tempdirs =
        cStateEmpty.tempdirs ++
          [cEnvFail.tempdirName cStateEmpty.tempdirs.length]) :=
  C7_records_before_retrieval cEnvFail "C:\\bin\\RetrieveSymbols.exe" cStateEmpty
    chromeLine "be90dbc6-fe31-4842-9c72-7e2ea88f0adf" "1" "C:\\build\\chrome.dll.pdb"
    (by decide) (by decide)

/-- C10: the cache-file name appended for an uncached matched entry is the
literal `chrome.dll` template filled only with the normalized signature
and the age — independent of which chrome binary the line mentions and of
the PDB path, so a `chrome_child.dll` line derives a `chrome.dll` name
and any two lines with the same signature and age derive the same name. -/
theorem C10_cache_name_literal (env : Env) (rp : String) (st : LoopState)
    (line g a p : String)
    (hline : parsedOf line = some (g, a, p))
    (hmiss : osExists st.fs (symcacheName g a) = false) :
    (processLine env rp st line).symcacheFiles =
      st.symcacheFiles ++
        ["c:\\symcache\\chrome.dll-" ++ stripDashes g ++ a ++ "v2.symcache"] ∧
    (∀ line2 p2, parsedOf line2 = some (g, a, p2) →
      (processLine env rp st line2).symcacheFiles =
        (processLine env rp st line).symcacheFiles) := by
  have h1 := processLine_appends_name env rp st line g a p hline hmiss
  exact ⟨by rw [h1]; rfl,
    fun line2 p2 h2 => by
      rw [processLine_appends_name env rp st line2 g a p2 h2 hmiss, h1]⟩

/-- C10 witness: a concrete `chrome_child.dll` line derives the literal
`chrome.dll` cache name, and the corresponding `chrome.dll` line with the
same signature and age derives the same name. -/
theorem C10_cache_name_literal_witness :
    (processLine cEnvFull "C:\\bin\\RetrieveSymbols.exe" cStateEmpty
        chromeChildLine).symcacheFiles =
      cStateEmpty.symcacheFiles ++
        ["c:\\symcache\\chrome.dll-" ++
          stripDashes "be90dbc6-fe31-4842-9c72-7e2ea88f0adf" ++ "1" ++ "v2.symcache"] ∧
    (processLine cEnvFull "C:\\bin\\RetrieveSymbols.exe" cStateEmpty
        chromeLine).symcacheFiles =
      (processLine cEnvFull "C:\\bin\\RetrieveSymbols.exe" cStateEmpty
        chromeChildLine).symcacheFiles :=
  ⟨(C10_cache_name_literal cEnvFull "C:\\bin\\RetrieveSymbols.exe" cStateEmpty
      chromeChildLine "be90dbc6-fe31-4842-9c72-7e2ea88f0adf" "1"
      "C:\\build\\chrome_child.dll.pdb" (by decide) (by decide)).1,
   (C10_cache_name_literal cEnvFull "C:\\bin\\RetrieveSymbols.exe" cStateEmpty
      chromeChildLine "be90dbc6-fe31-4842-9c72-7e2ea88f0adf" "1"
      "C:\\build\\chrome_child.dll.pdb" (by decide) (by decide)).2
    chromeLine "C:\\build\\chrome.dll.pdb" (by decide)⟩

end StripChromeSymbols
